import Mathlib

/-!
Shallow embedding of the analysis API route of the resumelens repository
(src/app/api/analyze/route.js).

The route exposes a POST handler that dispatches on the content type:
multipart bodies go to handleFileUpload, everything else to
handleTextRequest.  Both handlers validate their input, forward a request
to the external generative-AI provider and wrap the provider's answer or
error into a JSON envelope.  A GET handler returns a static capability
description.

Modelling conventions:
  - JavaScript strings are Lean String; the relevant library functions
    (includes, startsWith, trim-emptiness, the or-default idiom) are
    embedded as small executable functions prefixed with js.
  - The external provider is a parameter of type
    ProviderRequest -> Except ErrObj String: a thrown error becomes
    Except.error, a successful generateContent/response.text() round trip
    becomes Except.ok.
  - request.json() / request.formData() results are passed in as
    Except ErrObj _, since a parse failure is caught by the surrounding
    try/catch of each handler.
  - new Date().toISOString() and the resolved MODEL_NAME are parameters
    (now, modelName) of the handlers.
  - Each handler result records the HTTP response and the request that was
    sent to the provider, if any (sent = none means the provider was never
    called).
-/

namespace ResumeLens

/-- Character-list test: the first list is a leading segment of the second.
Used to embed the JavaScript string predicates below. -/
def chPre : List Char → List Char → Bool
  | [], _ => true
  | _ :: _, [] => false
  | a :: as, b :: bs => a == b && chPre as bs

/-- Model of JavaScript String.prototype.includes: the needle occurs
somewhere in the haystack. -/
def chHas : List Char → List Char → Bool
  | [], needle => needle.isEmpty
  | h :: t, needle => chPre needle (h :: t) || chHas t needle

def jsIncludes (s sub : String) : Bool := chHas s.data sub.data

/-- Model of JavaScript String.prototype.startsWith. -/
def jsStartsWith (s pre : String) : Bool := chPre pre.data s.data

/-- Whitespace characters removed by JavaScript String.prototype.trim. -/
def jsIsWhite (c : Char) : Bool :=
  c == ' ' || c == '\t' || c == '\n' || c == '\r' || c == '\x0b' ||
  c == '\x0c' || c == '\u00A0' || c == '\uFEFF'

/-- Model of the falsiness test !prompt.trim(): true exactly when trim()
returns the empty string, i.e. every character is whitespace. -/
def jsBlank (s : String) : Bool := s.data.all jsIsWhite

/-- Model of the JavaScript expression v || dflt where v is a string or
null/undefined: null, undefined and the empty string fall back to dflt. -/
def jsOr (v : Option String) (dflt : String) : String :=
  match v with
  | none => dflt
  | some s => if s = "" then dflt else s

/-- Supported file types of route.js: mime type paired with its label. -/
def SUPPORTED_TYPES : List (String × String) :=
  [("application/pdf", "PDF"),
   ("text/plain", "TXT"),
   ("text/markdown", "Markdown"),
   ("application/msword", "DOC"),
   ("application/vnd.openxmlformats-officedocument.wordprocessingml.document", "DOCX"),
   ("text/csv", "CSV"),
   ("image/jpeg", "JPEG"),
   ("image/png", "PNG"),
   ("image/webp", "WebP"),
   ("application/json", "JSON")]

/-- Max file size: 10MB (route.js line 26). -/
def MAX_FILE_SIZE : Nat := 10 * 1024 * 1024

/-- MODEL_NAME = process.env.NEXT_PUBLIC_MODEL_NAME || 'gemini-1.5-flash'. -/
def MODEL_NAME (envModelName : Option String) : String :=
  jsOr envModelName "gemini-1.5-flash"

/-- SUPPORTED_TYPES[fileType]: lookup of the label for a mime type. -/
def lookupSupportedType (mime : String) : Option String :=
  match SUPPORTED_TYPES.find? (fun p => p.1 == mime) with
  | none => none
  | some p => some p.2

/-- Object.values(SUPPORTED_TYPES). -/
def supportedTypeLabels : List String := SUPPORTED_TYPES.map Prod.snd

/-- Object.values(SUPPORTED_TYPES).join(', '). -/
def supportedTypesJoined : String := String.intercalate ", " supportedTypeLabels

/-- Request sent to the generative-AI provider: either a plain text prompt
(model.generateContent(string)) or a multimodal content array pairing a text
part with one inlineData part (mimeType + base64 data). -/
inductive ProviderRequest where
  | textReq (prompt : String)
  | multimodalReq (text : String) (mimeType : String) (base64Data : String)
deriving DecidableEq

/-- Error thrown by the provider SDK or by body parsing: message and stack. -/
structure ErrObj where
  message : String
  stack : String
deriving DecidableEq

/-- Metadata object of a success response; the text path fills
promptLength/responseLength, the file path fills fileName/fileType/
fileSize/analysisLength. -/
structure Metadata where
  model : String
  promptLength : Option Nat
  responseLength : Option Nat
  fileName : Option String
  fileType : Option String
  fileSize : Option Nat
  analysisLength : Option Nat
  timestamp : String
deriving DecidableEq

/-- JSON body of every response produced by the route: success flag,
optional response text, optional error message, optional details
(raw provider message or stack trace) and optional metadata. -/
structure ApiBody where
  success : Bool
  response : Option String
  error : Option String
  details : Option String
  metadata : Option Metadata
deriving DecidableEq

/-- HTTP response: status code plus JSON body. -/
structure ApiResponse where
  status : Nat
  body : ApiBody
deriving DecidableEq

/-- File obtained from formData.get('file'): name, reported size in bytes,
mime type and content bytes (each < 256). -/
structure UploadedFile where
  name : String
  size : Nat
  type : String
  bytes : List Nat
deriving DecidableEq

/-- Parsed JSON body of a text request ({ prompt, timestamp }). -/
structure TextBody where
  prompt : Option String
  timestamp : Option String
deriving DecidableEq

/-- Parsed multipart form: file, prompt and instruction fields, each
possibly absent. -/
structure FormData where
  file : Option UploadedFile
  prompt : Option String
  instruction : Option String
deriving DecidableEq

/-- Result of running a handler: the HTTP response, and the request that
was forwarded to the provider if the provider was called at all. -/
structure HandlerResult where
  resp : ApiResponse
  sent : Option ProviderRequest
deriving DecidableEq

/-- NextResponse.json of an error body: success false, no response text,
an error message, optional details, no metadata. -/
def errResponse (status : Nat) (msg : String) (details : Option String) : ApiResponse :=
  ⟨status, ⟨false, none, some msg, details, none⟩⟩

def apiKeyErrorMsg : String :=
  "Gemini API key is invalid or missing. Please check your GOOGLE_API_KEY in .env.local file."

def quotaErrorMsg : String :=
  "API quota exceeded. Please check your Google Cloud billing or wait until quota resets."

def invalidFileFormatMsg : String :=
  "File format may not be supported by Gemini. Try converting to a different format."

/-- Catch block of handleTextRequest (route.js lines 102-126): API key
messages give 401, quota messages 429, anything else 500 with the raw
message inside the error text and the stack trace as details. -/
def textCatchResponse (e : ErrObj) : ApiResponse :=
  if jsIncludes e.message "API key" || jsIncludes e.message "API_KEY_INVALID" then
    errResponse 401 apiKeyErrorMsg (some e.message)
  else if jsIncludes e.message "quota" || jsIncludes e.message "QUOTA" then
    errResponse 429 quotaErrorMsg (some e.message)
  else
    errResponse 500 ("Text analysis failed: " ++ e.message) (some e.stack)

/-- Catch block of handleFileUpload (route.js lines 249-282): like the text
catch block but with an extra 400 case for messages containing both
"invalid" and "file". -/
def fileCatchResponse (e : ErrObj) : ApiResponse :=
  if jsIncludes e.message "API key" || jsIncludes e.message "API_KEY_INVALID" then
    errResponse 401 apiKeyErrorMsg (some e.message)
  else if jsIncludes e.message "quota" || jsIncludes e.message "QUOTA" then
    errResponse 429 quotaErrorMsg (some e.message)
  else if jsIncludes e.message "invalid" && jsIncludes e.message "file" then
    errResponse 400 invalidFileFormatMsg (some e.message)
  else
    errResponse 500 ("File analysis failed: " ++ e.message) (some e.stack)

/-- handleTextRequest (route.js lines 51-127).  A failed request.json()
lands in the catch block; a missing, empty or all-whitespace prompt gives
400; otherwise the prompt is forwarded to the provider and the answer is
wrapped into a success envelope, while a provider error goes through the
catch block. -/
def handleTextRequest (modelName now : String)
    (provider : ProviderRequest → Except ErrObj String)
    (parsed : Except ErrObj TextBody) : HandlerResult :=
  match parsed with
  | .error e => ⟨textCatchResponse e, none⟩
  | .ok body =>
    match body.prompt with
    | none => ⟨errResponse 400 "Prompt is required" none, none⟩
    | some prompt =>
      if jsBlank prompt then
        ⟨errResponse 400 "Prompt is required" none, none⟩
      else
        match provider (.textReq prompt) with
        | .ok text =>
          ⟨⟨200, ⟨true, some text, none, none,
            some ⟨modelName, some prompt.length, some text.length,
                  none, none, none, none, now⟩⟩⟩,
           some (.textReq prompt)⟩
        | .error e => ⟨textCatchResponse e, some (.textReq prompt)⟩

def defaultFilePrompt : String :=
  "Please analyze this file content and provide key insights"

def defaultFileInstruction : String :=
  "Extract key information, summarize content, and provide analysis"

def base64Chars : List Char :=
  "ABCDEFGHIJKLMNOPQRSTUVWXYZabcdefghijklmnopqrstuvwxyz0123456789+/".data

def b64Char (n : Nat) : Char := base64Chars.getD n '='

/-- Model of Buffer.toString('base64'): standard base64 with padding. -/
def base64Encode : List Nat → String
  | [] => ""
  | [b1] =>
    String.mk [b64Char (b1 / 4), b64Char (b1 % 4 * 16), '=', '=']
  | [b1, b2] =>
    String.mk [b64Char (b1 / 4), b64Char (b1 % 4 * 16 + b2 / 16),
               b64Char (b2 % 16 * 4), '=']
  | b1 :: b2 :: b3 :: rest =>
    String.mk [b64Char (b1 / 4), b64Char (b1 % 4 * 16 + b2 / 16),
               b64Char (b2 % 16 * 4 + b3 / 64), b64Char (b3 % 64)]
      ++ base64Encode rest

/-- Replacement character U+FFFD emitted by TextDecoder on invalid UTF-8. -/
def replChar : Char := Char.ofNat 0xFFFD

def contByte (b : Nat) : Bool := 0x80 ≤ b && b < 0xC0

def lead3Lo (b : Nat) : Nat := if b = 0xE0 then 0xA0 else 0x80

def lead3Hi (b : Nat) : Nat := if b = 0xED then 0x9F else 0xBF

def lead4Lo (b : Nat) : Nat := if b = 0xF0 then 0x90 else 0x80

def lead4Hi (b : Nat) : Nat := if b = 0xF4 then 0x8F else 0xBF

/-- WHATWG UTF-8 decoding with replacement on error, fuelled by the number
of remaining bytes (each step consumes at least one byte). -/
def utf8Go : Nat → List Nat → List Char
  | 0, _ => []
  | _ + 1, [] => []
  | fuel + 1, b :: rest =>
    if b < 0x80 then Char.ofNat b :: utf8Go fuel rest
    else if b < 0xC2 then replChar :: utf8Go fuel rest
    else if b < 0xE0 then
      match rest with
      | [] => [replChar]
      | c1 :: r1 =>
        if contByte c1 then
          Char.ofNat ((b - 0xC0) * 64 + (c1 - 0x80)) :: utf8Go fuel r1
        else replChar :: utf8Go fuel (c1 :: r1)
    else if b < 0xF0 then
      match rest with
      | [] => [replChar]
      | c1 :: r1 =>
        if lead3Lo b ≤ c1 && c1 ≤ lead3Hi b then
          match r1 with
          | [] => [replChar]
          | c2 :: r2 =>
            if contByte c2 then
              Char.ofNat ((b - 0xE0) * 4096 + (c1 - 0x80) * 64 + (c2 - 0x80))
                :: utf8Go fuel r2
            else replChar :: utf8Go fuel (c2 :: r2)
        else replChar :: utf8Go fuel (c1 :: r1)
    else if b < 0xF5 then
      match rest with
      | [] => [replChar]
      | c1 :: r1 =>
        if lead4Lo b ≤ c1 && c1 ≤ lead4Hi b then
          match r1 with
          | [] => [replChar]
          | c2 :: r2 =>
            if contByte c2 then
              match r2 with
              | [] => [replChar]
              | c3 :: r3 =>
                if contByte c3 then
                  Char.ofNat ((b - 0xF0) * 262144 + (c1 - 0x80) * 4096 +
                    (c2 - 0x80) * 64 + (c3 - 0x80)) :: utf8Go fuel r3
                else replChar :: utf8Go fuel (c3 :: r3)
            else replChar :: utf8Go fuel (c2 :: r2)
        else replChar :: utf8Go fuel (c1 :: r1)
    else replChar :: utf8Go fuel rest

/-- Model of new TextDecoder('utf-8').decode(fileBuffer). -/
def utf8Decode (bs : List Nat) : List Char := utf8Go bs.length bs

/-- Model of String.prototype.substring(0, n): keeps a leading segment of
at most n UTF-16 code units (an astral character weighs two units; a pair
split at the boundary is dropped). -/
def takeUtf16 : Nat → List Char → List Char
  | _, [] => []
  | 0, _ :: _ => []
  | n + 1, c :: cs =>
    if c.toNat ≥ 0x10000 then
      if n = 0 then [] else c :: takeUtf16 (n - 1) cs
    else c :: takeUtf16 n cs

/-- Extracted text of a text-like upload: UTF-8 decode then
substring(0, 15000) (route.js line 217). -/
def extractedTextOf (bs : List Nat) : String :=
  String.mk (takeUtf16 15000 (utf8Decode bs))

/-- Model of the template fragment (file.size / 1024).toFixed(1): the
division by 1024 is exact on doubles and toFixed(1) rounds half up, so the
result is the half-up rounding of size * 10 / 1024 printed with one
decimal. -/
def formatKB1 (size : Nat) : String :=
  toString ((size * 10 + 512) / 1024 / 10) ++ "." ++
    toString ((size * 10 + 512) / 1024 % 10)

/-- Condition of route.js line 188: binary (inlineData) treatment for
image/* and PDF uploads. -/
def isBinaryType (mime : String) : Bool :=
  jsStartsWith mime "image/" || mime == "application/pdf"

/-- Shared header of both file prompts (route.js lines 197 and 222). -/
def fileHeaderText (instruction : String) (file : UploadedFile)
    (supportedType prompt : String) : String :=
  instruction ++ "\n\nFile: " ++ file.name ++ "\nType: " ++ supportedType ++
    "\nSize: " ++ formatKB1 file.size ++ " KB\n\nPrompt: " ++ prompt

/-- Provider request built for a validated upload (route.js lines 185-227):
binary types get a multimodal request with the base64-encoded bytes, the
other supported types get a single text prompt embedding the truncated
UTF-8 decoding of the bytes. -/
def buildFileRequest (instruction prompt : String) (file : UploadedFile)
    (supportedType : String) : ProviderRequest :=
  if isBinaryType file.type then
    .multimodalReq
      (fileHeaderText instruction file supportedType prompt ++
        "\n\nPlease analyze this document:")
      file.type (base64Encode file.bytes)
  else
    .textReq
      (fileHeaderText instruction file supportedType prompt ++
        "\n\nFile Content:\n" ++ extractedTextOf file.bytes)

/-- Body of handleFileUpload after the prompt and instruction defaults have
been resolved (route.js lines 137-247): missing file gives 400, oversized
file 413, unsupported mime type 400; otherwise the built request is sent to
the provider and the answer is wrapped into a success envelope. -/
def processUploadedFile (modelName now : String)
    (provider : ProviderRequest → Except ErrObj String)
    (prompt instruction : String) (fileOpt : Option UploadedFile) : HandlerResult :=
  match fileOpt with
  | none => ⟨errResponse 400 "No file provided" none, none⟩
  | some file =>
    if file.size > MAX_FILE_SIZE then
      ⟨errResponse 413
        ("File too large. Maximum size is " ++
          toString (MAX_FILE_SIZE / 1024 / 1024) ++ "MB") none, none⟩
    else
      match lookupSupportedType file.type with
      | none =>
        ⟨errResponse 400
          ("Unsupported file type: " ++ file.type ++ ". Supported types: " ++
            supportedTypesJoined) none, none⟩
      | some supportedType =>
        match provider (buildFileRequest instruction prompt file supportedType) with
        | .ok analysis =>
          ⟨⟨200, ⟨true, some analysis, none, none,
            some ⟨modelName, none, none, some file.name, some supportedType,
                  some file.size, some analysis.length, now⟩⟩⟩,
           some (buildFileRequest instruction prompt file supportedType)⟩
        | .error e =>
          ⟨fileCatchResponse e,
           some (buildFileRequest instruction prompt file supportedType)⟩

/-- handleFileUpload (route.js lines 130-283).  A failed
request.formData() lands in the catch block; otherwise the prompt and
instruction fields fall back to their defaults and the upload is
processed. -/
def handleFileUpload (modelName now : String)
    (provider : ProviderRequest → Except ErrObj String)
    (parsed : Except ErrObj FormData) : HandlerResult :=
  match parsed with
  | .error e => ⟨fileCatchResponse e, none⟩
  | .ok form =>
    processUploadedFile modelName now provider
      (jsOr form.prompt defaultFilePrompt)
      (jsOr form.instruction defaultFileInstruction)
      form.file

/-- HTTP request as seen by the route: content-type header plus the
outcome of parsing the body as JSON and as form data. -/
structure HttpRequest where
  contentType : Option String
  jsonParsed : Except ErrObj TextBody
  formParsed : Except ErrObj FormData

/-- POST handler (route.js lines 28-48): multipart content types go to the
file handler, everything else to the text handler. -/
def POST (modelName now : String)
    (provider : ProviderRequest → Except ErrObj String)
    (req : HttpRequest) : HandlerResult :=
  if jsIncludes (jsOr req.contentType "") "multipart/form-data" then
    handleFileUpload modelName now provider req.formParsed
  else
    handleTextRequest modelName now provider req.jsonParsed

/-- Static body returned by the GET handler. -/
structure GetBody where
  message : String
  status : String
  model : String
  supportedFileTypes : List String
  maxFileSize : String
  textAnalysisEndpoint : String
  fileAnalysisEndpoint : String
  curlTextExample : String
  curlFileExample : String
deriving DecidableEq

/-- GET handler (route.js lines 286-302): a constant 200 capability
description. -/
def GET (modelName : String) (_req : HttpRequest) : Nat × GetBody :=
  (200,
   ⟨"Gemini AI Analysis API", "active", modelName, supportedTypeLabels,
    toString (MAX_FILE_SIZE / 1024 / 1024) ++ "MB",
    "POST /api/analyze with JSON body \x7bprompt: \"your text\"\x7d",
    "POST /api/analyze with multipart/form-data (file and optional prompt)",
    "curl -X POST http://localhost:3000/api/analyze -H \"Content-Type: application/json\" -d \x27\x7b\"prompt\":\"Hello Gemini\"\x7d\x27",
    "curl -X POST http://localhost:3000/api/analyze -F \"file=@document.pdf\" -F \"prompt=Analyze this\""⟩)

/-- Spec-side shape of the AnalysisResult envelope, amended to what the
code produces: success is true exactly on status 200, exactly one of
response and error is present, and metadata is present exactly on
success. -/
def analysisResultEnvelope (r : ApiResponse) : Prop :=
  (r.body.success = true ↔ r.status = 200) ∧
  ((r.body.response.isSome = true ∧ r.body.error = none) ∨
   (r.body.response = none ∧ r.body.error.isSome = true)) ∧
  (r.body.metadata.isSome = true ↔ r.body.success = true)

/-! Helper lemmas shared by the claim theorems. -/

theorem takeUtf16_length_le : ∀ (l : List Char) (n : Nat), (takeUtf16 n l).length ≤ n := by
  intro l
  induction l with
  | nil => intro n; cases n <;> simp [takeUtf16]
  | cons c cs ih =>
    intro n
    cases n with
    | zero => simp [takeUtf16]
    | succ m =>
      simp only [takeUtf16]
      split
      · split
        · simp
        · have h := ih (m - 1)
          simp only [List.length_cons]
          omega
      · have h := ih m
        simp only [List.length_cons]
        omega

theorem extractedTextOf_length_le (bs : List Nat) : (extractedTextOf bs).length ≤ 15000 :=
  takeUtf16_length_le (utf8Decode bs) 15000

theorem lookup_mem (mime st : String) (h : lookupSupportedType mime = some st) :
    mime ∈ SUPPORTED_TYPES.map Prod.fst := by
  unfold lookupSupportedType at h
  cases hf : SUPPORTED_TYPES.find? (fun p => p.1 == mime) with
  | none => rw [hf] at h; exact absurd h (by simp)
  | some q =>
    have hmem := List.mem_of_find?_eq_some hf
    have hpred := List.find?_some hf
    have hq : q.1 = mime := by simpa using hpred
    rw [← hq]
    exact List.mem_map_of_mem Prod.fst hmem

theorem isBinaryType_on_supported :
    ∀ mime ∈ SUPPORTED_TYPES.map Prod.fst,
      (isBinaryType mime = true ↔
        mime ∈ ["application/pdf", "image/jpeg", "image/png", "image/webp"]) := by
  decide

theorem fileCatch_status_cases (e : ErrObj) :
    (fileCatchResponse e).status = 401 ∨ (fileCatchResponse e).status = 429 ∨
    (fileCatchResponse e).status = 400 ∨ (fileCatchResponse e).status = 500 := by
  unfold fileCatchResponse
  split
  · left; rfl
  · split
    · right; left; rfl
    · split
      · right; right; left; rfl
      · right; right; right; rfl

/-- Claim C3: for every JSON-body request whose prompt field is absent,
empty, or consists only of whitespace, the handler returns HTTP 400 with an
error message and does not call the external provider. -/
theorem c3_blank_prompt_rejected (modelName now : String)
    (provider : ProviderRequest → Except ErrObj String) (ts : Option String)
    (p : Option String) (hp : ∀ s, p = some s → jsBlank s = true) :
    (handleTextRequest modelName now provider (Except.ok ⟨p, ts⟩)).resp.status = 400 ∧
    (handleTextRequest modelName now provider (Except.ok ⟨p, ts⟩)).resp.body.error =
      some "Prompt is required" ∧
    (handleTextRequest modelName now provider (Except.ok ⟨p, ts⟩)).sent = none := by
  cases p with
  | none => exact ⟨rfl, rfl, rfl⟩
  | some s =>
    have hb := hp s rfl
    simp [handleTextRequest, hb, errResponse]

/-- Witness for C3 at the whitespace-only prompt "   ". -/
theorem c3_blank_prompt_rejected_witness :
    (∀ s, (some "   " : Option String) = some s → jsBlank s = true) ∧
    (handleTextRequest "gemini-1.5-flash" "now" (fun _ => Except.ok "x")
      (Except.ok ⟨some "   ", none⟩)).resp.status = 400 ∧
    (handleTextRequest "gemini-1.5-flash" "now" (fun _ => Except.ok "x")
      (Except.ok ⟨some "   ", none⟩)).sent = none := by
  have hp : ∀ s, (some "   " : Option String) = some s → jsBlank s = true := by
    intro s hs
    cases hs
    decide
  have h := c3_blank_prompt_rejected "gemini-1.5-flash" "now" (fun _ => Except.ok "x")
    none (some "   ") hp
  exact ⟨hp, h.1, h.2.2⟩

/-- Claim C4: a file larger than 10 MB is rejected with 413 before the mime
type is even looked at and without calling the provider, while a file of
exactly 10 MB is never answered with 413. -/
theorem c4_size_limit (modelName now : String)
    (provider : ProviderRequest → Except ErrObj String)
    (p i : Option String) (f : UploadedFile) :
    (f.size > MAX_FILE_SIZE →
      (handleFileUpload modelName now provider (Except.ok ⟨some f, p, i⟩)).resp.status = 413 ∧
      (handleFileUpload modelName now provider (Except.ok ⟨some f, p, i⟩)).sent = none) ∧
    (f.size = MAX_FILE_SIZE →
      (handleFileUpload modelName now provider (Except.ok ⟨some f, p, i⟩)).resp.status ≠ 413) := by
  constructor
  · intro hsz
    simp [handleFileUpload, processUploadedFile, hsz, errResponse]
  · intro hsz
    have hn : ¬ f.size > MAX_FILE_SIZE := by omega
    simp only [handleFileUpload, processUploadedFile]
    rw [if_neg hn]
    split
    · simp [errResponse]
    · split
      · simp
      · next e _ =>
        rcases fileCatch_status_cases e with h | h | h | h <;> simp [h]

/-- Witness for C4: an 11 MB upload is answered with 413 and a 10 MB text
upload is not. -/
theorem c4_size_limit_witness :
    (11534336 > MAX_FILE_SIZE) ∧
    (handleFileUpload "gemini-1.5-flash" "now" (fun _ => Except.ok "x")
      (Except.ok ⟨some ⟨"big.mp4", 11534336, "video/mp4", []⟩, none, none⟩)).resp.status = 413 ∧
    (10485760 = MAX_FILE_SIZE) ∧
    (handleFileUpload "gemini-1.5-flash" "now" (fun _ => Except.ok "x")
      (Except.ok ⟨some ⟨"exact.txt", 10485760, "text/plain", [104]⟩, none, none⟩)).resp.status ≠ 413 := by
  refine ⟨by decide, ?_, by decide, ?_⟩
  · exact ((c4_size_limit "gemini-1.5-flash" "now" (fun _ => Except.ok "x")
      none none ⟨"big.mp4", 11534336, "video/mp4", []⟩).1 (by decide)).1
  · exact (c4_size_limit "gemini-1.5-flash" "now" (fun _ => Except.ok "x")
      none none ⟨"exact.txt", 10485760, "text/plain", [104]⟩).2 (by decide)

/-- Claim C8: a PDF upload under the size limit whose provider call
succeeds is answered with 200, success true, and metadata fileType
"PDF". -/
theorem c8_pdf_success (modelName now analysis : String)
    (provider : ProviderRequest → Except ErrObj String)
    (p i : Option String) (f : UploadedFile)
    (hty : f.type = "application/pdf") (hsz : ¬ f.size > MAX_FILE_SIZE)
    (hprov : ∀ r, provider r = Except.ok analysis) :
    (handleFileUpload modelName now provider (Except.ok ⟨some f, p, i⟩)).resp.status = 200 ∧
    (handleFileUpload modelName now provider (Except.ok ⟨some f, p, i⟩)).resp.body.success = true ∧
    ((handleFileUpload modelName now provider (Except.ok ⟨some f, p, i⟩)).resp.body.metadata.map
      Metadata.fileType) = some (some "PDF") := by
  have hl : lookupSupportedType f.type = some "PDF" := by rw [hty]; rfl
  simp [handleFileUpload, processUploadedFile, hsz, hl, hprov]

/-- Witness for C8 at a four-byte PDF. -/
theorem c8_pdf_success_witness :
    ¬ (4 > MAX_FILE_SIZE) ∧
    (handleFileUpload "gemini-1.5-flash" "now" (fun _ => Except.ok "Looks good")
      (Except.ok ⟨some ⟨"resume.pdf", 4, "application/pdf", [37, 80, 68, 70]⟩, none, none⟩)).resp.status = 200 ∧
    ((handleFileUpload "gemini-1.5-flash" "now" (fun _ => Except.ok "Looks good")
      (Except.ok ⟨some ⟨"resume.pdf", 4, "application/pdf", [37, 80, 68, 70]⟩, none, none⟩)).resp.body.metadata.map
      Metadata.fileType) = some (some "PDF") := by
  have h := c8_pdf_success "gemini-1.5-flash" "now" "Looks good" (fun _ => Except.ok "Looks good")
    none none ⟨"resume.pdf", 4, "application/pdf", [37, 80, 68, 70]⟩ rfl (by decide) (fun r => rfl)
  exact ⟨by decide, h.1, h.2.2⟩

/-- Claim C9: every GET request is answered with 200 and the static
capability description: the configured model name, the ten supported file
type labels, and the maximum size rendered as "10MB"; the answer does not
depend on the request. -/
theorem c9_get_capabilities (modelName : String) (req other : HttpRequest) :
    GET modelName req =
      (200,
       ⟨"Gemini AI Analysis API", "active", modelName, supportedTypeLabels, "10MB",
        "POST /api/analyze with JSON body \x7bprompt: \"your text\"\x7d",
        "POST /api/analyze with multipart/form-data (file and optional prompt)",
        "curl -X POST http://localhost:3000/api/analyze -H \"Content-Type: application/json\" -d \x27\x7b\"prompt\":\"Hello Gemini\"\x7d\x27",
        "curl -X POST http://localhost:3000/api/analyze -F \"file=@document.pdf\" -F \"prompt=Analyze this\""⟩) ∧
    supportedTypeLabels = ["PDF", "TXT", "Markdown", "DOC", "DOCX", "CSV", "JPEG", "PNG", "WebP", "JSON"] ∧
    supportedTypeLabels.length = 10 ∧
    GET modelName req = GET modelName other := by
  exact ⟨rfl, by decide, by decide, rfl⟩

/-- Claim C10: a multipart request with a file but without prompt or
instruction fields is processed exactly as if the fixed default prompt and
instruction had been supplied, and when the file passes validation the
provider is called with the request built from those defaults. -/
theorem c10_missing_fields_defaulted (modelName now : String)
    (provider : ProviderRequest → Except ErrObj String) (f : UploadedFile) :
    handleFileUpload modelName now provider (Except.ok ⟨some f, none, none⟩) =
      handleFileUpload modelName now provider
        (Except.ok ⟨some f, some defaultFilePrompt, some defaultFileInstruction⟩) ∧
    (∀ st, ¬ f.size > MAX_FILE_SIZE → lookupSupportedType f.type = some st →
      (handleFileUpload modelName now provider (Except.ok ⟨some f, none, none⟩)).sent =
        some (buildFileRequest defaultFileInstruction defaultFilePrompt f st)) := by
  constructor
  · show processUploadedFile modelName now provider
        (jsOr none defaultFilePrompt) (jsOr none defaultFileInstruction) (some f) =
      processUploadedFile modelName now provider
        (jsOr (some defaultFilePrompt) defaultFilePrompt)
        (jsOr (some defaultFileInstruction) defaultFileInstruction) (some f)
    rw [show jsOr (some defaultFilePrompt) defaultFilePrompt = jsOr none defaultFilePrompt by decide,
        show jsOr (some defaultFileInstruction) defaultFileInstruction =
          jsOr none defaultFileInstruction by decide]
  · intro st hsz hl
    show (processUploadedFile modelName now provider defaultFilePrompt defaultFileInstruction (some f)).sent = _
    simp only [processUploadedFile]
    rw [if_neg hsz, hl]
    cases hres : provider (buildFileRequest defaultFileInstruction defaultFilePrompt f st) <;>
      simp [hres]

/-- Witness for C10 at a small text file. -/
theorem c10_missing_fields_defaulted_witness :
    ¬ (3 > MAX_FILE_SIZE) ∧ lookupSupportedType "text/plain" = some "TXT" ∧
    (handleFileUpload "gemini-1.5-flash" "now" (fun _ => Except.ok "x")
        (Except.ok ⟨some ⟨"a.txt", 3, "text/plain", [104, 105, 33]⟩, none, none⟩) =
      handleFileUpload "gemini-1.5-flash" "now" (fun _ => Except.ok "x")
        (Except.ok ⟨some ⟨"a.txt", 3, "text/plain", [104, 105, 33]⟩,
          some defaultFilePrompt, some defaultFileInstruction⟩)) ∧
    (handleFileUpload "gemini-1.5-flash" "now" (fun _ => Except.ok "x")
      (Except.ok ⟨some ⟨"a.txt", 3, "text/plain", [104, 105, 33]⟩, none, none⟩)).sent =
      some (buildFileRequest defaultFileInstruction defaultFilePrompt
        ⟨"a.txt", 3, "text/plain", [104, 105, 33]⟩ "TXT") := by
  have h := c10_missing_fields_defaulted "gemini-1.5-flash" "now" (fun _ => Except.ok "x")
    ⟨"a.txt", 3, "text/plain", [104, 105, 33]⟩
  exact ⟨by decide, by decide, h.1, h.2 "TXT" (by decide) (by decide)⟩

/-- Claim C7 counterexample: with a valid prompt and a provider call that
succeeds returning the empty string, the handler answers 200 with an empty
response string, so the response is not always non-empty. -/
theorem c7_counterexample :
    jsBlank "Review my resume please" = false ∧
    (handleTextRequest "gemini-1.5-flash" "now" (fun _ => Except.ok "")
      (Except.ok ⟨some "Review my resume please", none⟩)).resp.status = 200 ∧
    (handleTextRequest "gemini-1.5-flash" "now" (fun _ => Except.ok "")
      (Except.ok ⟨some "Review my resume please", none⟩)).resp.body.response = some "" ∧
    ("" : String).length = 0 := by
  exact ⟨by decide, by decide, by decide, by decide⟩

/-- Claim C7 (amended): for every JSON-body request with a non-blank prompt
where the provider call succeeds and returns non-empty text, the handler
returns 200 with success true, a non-empty response string (the response
is exactly the provider's text), and metadata whose promptLength equals
the prompt's length. -/
theorem c7_amended_text_success (modelName now promptText text : String)
    (ts : Option String) (provider : ProviderRequest → Except ErrObj String)
    (hp : jsBlank promptText = false)
    (hcall : provider (ProviderRequest.textReq promptText) = Except.ok text)
    (htext : text ≠ "") :
    (handleTextRequest modelName now provider (Except.ok ⟨some promptText, ts⟩)).resp.status = 200 ∧
    (handleTextRequest modelName now provider (Except.ok ⟨some promptText, ts⟩)).resp.body.success = true ∧
    (handleTextRequest modelName now provider
      (Except.ok ⟨some promptText, ts⟩)).resp.body.response = some text ∧
    (∃ s, (handleTextRequest modelName now provider
        (Except.ok ⟨some promptText, ts⟩)).resp.body.response = some s ∧ s ≠ "") ∧
    ((handleTextRequest modelName now provider (Except.ok ⟨some promptText, ts⟩)).resp.body.metadata.map
      Metadata.promptLength) = some (some promptText.length) := by
  refine ⟨?_, ?_, ?_, ⟨text, ?_, htext⟩, ?_⟩ <;> simp [handleTextRequest, hp, hcall]

/-- Witness for the amended C7 at the prompt "hello" and provider text
"world". -/
theorem c7_amended_text_success_witness :
    jsBlank "hello" = false ∧ ("world" : String) ≠ "" ∧
    (handleTextRequest "gemini-1.5-flash" "now" (fun _ => Except.ok "world")
      (Except.ok ⟨some "hello", none⟩)).resp.status = 200 ∧
    (handleTextRequest "gemini-1.5-flash" "now" (fun _ => Except.ok "world")
      (Except.ok ⟨some "hello", none⟩)).resp.body.response = some "world" ∧
    ((handleTextRequest "gemini-1.5-flash" "now" (fun _ => Except.ok "world")
      (Except.ok ⟨some "hello", none⟩)).resp.body.metadata.map
      Metadata.promptLength) = some (some 5) := by
  have h := c7_amended_text_success "gemini-1.5-flash" "now" "hello" "world"
    none (fun _ => Except.ok "world") (by decide) rfl (by decide)
  exact ⟨by decide, by decide, h.1, h.2.2.1, h.2.2.2.2⟩

/-- Claim C2: for a supported upload, image and PDF types are sent as a
multimodal request carrying the base64 encoding of the file bytes, and
every other supported type is sent as one composed text prompt embedding
the UTF-8 decoding of the bytes truncated to at most 15000 characters;
among the supported types the binary branch is taken exactly for PDF and
the three image types. -/
theorem c2_file_request_construction (modelName now : String)
    (provider : ProviderRequest → Except ErrObj String)
    (p i : Option String) (f : UploadedFile) (st : String)
    (hsz : ¬ f.size > MAX_FILE_SIZE)
    (hty : lookupSupportedType f.type = some st) :
    (isBinaryType f.type = true →
      (handleFileUpload modelName now provider (Except.ok ⟨some f, p, i⟩)).sent =
        some (ProviderRequest.multimodalReq
          (fileHeaderText (jsOr i defaultFileInstruction) f st (jsOr p defaultFilePrompt) ++
            "\n\nPlease analyze this document:")
          f.type (base64Encode f.bytes))) ∧
    (isBinaryType f.type = false →
      (handleFileUpload modelName now provider (Except.ok ⟨some f, p, i⟩)).sent =
        some (ProviderRequest.textReq
          (fileHeaderText (jsOr i defaultFileInstruction) f st (jsOr p defaultFilePrompt) ++
            "\n\nFile Content:\n" ++ extractedTextOf f.bytes)) ∧
      (extractedTextOf f.bytes).length ≤ 15000) ∧
    (isBinaryType f.type = true ↔
      f.type ∈ ["application/pdf", "image/jpeg", "image/png", "image/webp"]) := by
  have hsent : (handleFileUpload modelName now provider (Except.ok ⟨some f, p, i⟩)).sent =
      some (buildFileRequest (jsOr i defaultFileInstruction) (jsOr p defaultFilePrompt) f st) := by
    show (processUploadedFile modelName now provider
      (jsOr p defaultFilePrompt) (jsOr i defaultFileInstruction) (some f)).sent = _
    simp only [processUploadedFile]
    rw [if_neg hsz, hty]
    cases hres : provider (buildFileRequest (jsOr i defaultFileInstruction)
        (jsOr p defaultFilePrompt) f st) <;>
      simp [hres]
  refine ⟨?_, ?_, isBinaryType_on_supported f.type (lookup_mem f.type st hty)⟩
  · intro hb
    rw [hsent]
    simp [buildFileRequest, hb]
  · intro hb
    refine ⟨?_, extractedTextOf_length_le f.bytes⟩
    rw [hsent]
    simp [buildFileRequest, hb]

/-- Witness for C2: a PDF goes through the binary branch and a text file
through the text branch. -/
theorem c2_file_request_construction_witness :
    ¬ (4 > MAX_FILE_SIZE) ∧
    lookupSupportedType "application/pdf" = some "PDF" ∧
    isBinaryType "application/pdf" = true ∧
    (handleFileUpload "gemini-1.5-flash" "now" (fun _ => Except.ok "x")
      (Except.ok ⟨some ⟨"resume.pdf", 4, "application/pdf", [37, 80, 68, 70]⟩, some "p", some "i"⟩)).sent =
      some (ProviderRequest.multimodalReq
        (fileHeaderText "i" ⟨"resume.pdf", 4, "application/pdf", [37, 80, 68, 70]⟩ "PDF" "p" ++
          "\n\nPlease analyze this document:")
        "application/pdf" (base64Encode [37, 80, 68, 70])) ∧
    isBinaryType "text/plain" = false ∧
    (handleFileUpload "gemini-1.5-flash" "now" (fun _ => Except.ok "x")
      (Except.ok ⟨some ⟨"a.txt", 3, "text/plain", [104, 105, 33]⟩, some "p", some "i"⟩)).sent =
      some (ProviderRequest.textReq
        (fileHeaderText "i" ⟨"a.txt", 3, "text/plain", [104, 105, 33]⟩ "TXT" "p" ++
          "\n\nFile Content:\n" ++ extractedTextOf [104, 105, 33])) := by
  have hpdf := c2_file_request_construction "gemini-1.5-flash" "now" (fun _ => Except.ok "x")
    (some "p") (some "i") ⟨"resume.pdf", 4, "application/pdf", [37, 80, 68, 70]⟩ "PDF"
    (by decide) (by decide)
  have htxt := c2_file_request_construction "gemini-1.5-flash" "now" (fun _ => Except.ok "x")
    (some "p") (some "i") ⟨"a.txt", 3, "text/plain", [104, 105, 33]⟩ "TXT"
    (by decide) (by decide)
  exact ⟨by decide, by decide, by decide, hpdf.1 (by decide), by decide, (htxt.2.1 (by decide)).1⟩

/-- Claim C1 counterexample: a text request that reaches the provider and
fails with the file-format message "invalid resume file" (which matches the
substring policy for file-format errors and none of the API key or quota
patterns) is answered with 500, not with the 400 the claim assigns to
file-format errors. -/
theorem c1_counterexample :
    jsIncludes "invalid resume file" "invalid" = true ∧
    jsIncludes "invalid resume file" "file" = true ∧
    jsIncludes "invalid resume file" "API key" = false ∧
    jsIncludes "invalid resume file" "API_KEY_INVALID" = false ∧
    jsIncludes "invalid resume file" "quota" = false ∧
    jsIncludes "invalid resume file" "QUOTA" = false ∧
    jsBlank "Review my resume" = false ∧
    (handleTextRequest "gemini-1.5-flash" "now"
      (fun _ => Except.error ⟨"invalid resume file", "stack trace"⟩)
      (Except.ok ⟨some "Review my resume", none⟩)).sent =
        some (ProviderRequest.textReq "Review my resume") ∧
    (handleTextRequest "gemini-1.5-flash" "now"
      (fun _ => Except.error ⟨"invalid resume file", "stack trace"⟩)
      (Except.ok ⟨some "Review my resume", none⟩)).resp.status = 500 ∧
    (500 : Nat) ≠ 400 := by
  decide

/-- Claim C1 (amended): when a request that reaches the provider fails, the
error message is mapped by substring matching: API key messages give 401
and quota messages 429 on both paths; messages containing both "invalid"
and "file" give 400 on the file-upload path only; everything unmatched
gives 500 echoing the raw message and the stack trace (on the text path
this includes file-format messages). -/
theorem c1_amended_error_mapping (modelName now promptText : String) (e : ErrObj)
    (provider : ProviderRequest → Except ErrObj String)
    (p i : Option String) (f : UploadedFile) (st : String)
    (hp : jsBlank promptText = false)
    (hprov : ∀ r, provider r = Except.error e)
    (hsz : ¬ f.size > MAX_FILE_SIZE)
    (hty : lookupSupportedType f.type = some st) :
    (handleTextRequest modelName now provider (Except.ok ⟨some promptText, none⟩)).resp.status =
      (if jsIncludes e.message "API key" || jsIncludes e.message "API_KEY_INVALID" then 401
       else if jsIncludes e.message "quota" || jsIncludes e.message "QUOTA" then 429
       else 500) ∧
    (handleFileUpload modelName now provider (Except.ok ⟨some f, p, i⟩)).resp.status =
      (if jsIncludes e.message "API key" || jsIncludes e.message "API_KEY_INVALID" then 401
       else if jsIncludes e.message "quota" || jsIncludes e.message "QUOTA" then 429
       else if jsIncludes e.message "invalid" && jsIncludes e.message "file" then 400
       else 500) ∧
    ((jsIncludes e.message "API key" || jsIncludes e.message "API_KEY_INVALID") = false →
     (jsIncludes e.message "quota" || jsIncludes e.message "QUOTA") = false →
      (handleTextRequest modelName now provider (Except.ok ⟨some promptText, none⟩)).resp.body.error =
        some ("Text analysis failed: " ++ e.message) ∧
      (handleTextRequest modelName now provider (Except.ok ⟨some promptText, none⟩)).resp.body.details =
        some e.stack) ∧
    ((jsIncludes e.message "API key" || jsIncludes e.message "API_KEY_INVALID") = false →
     (jsIncludes e.message "quota" || jsIncludes e.message "QUOTA") = false →
     (jsIncludes e.message "invalid" && jsIncludes e.message "file") = false →
      (handleFileUpload modelName now provider (Except.ok ⟨some f, p, i⟩)).resp.body.error =
        some ("File analysis failed: " ++ e.message) ∧
      (handleFileUpload modelName now provider (Except.ok ⟨some f, p, i⟩)).resp.body.details =
        some e.stack) := by
  have ht : (handleTextRequest modelName now provider (Except.ok ⟨some promptText, none⟩)).resp =
      textCatchResponse e := by
    simp [handleTextRequest, hp, hprov]
  have hf : (handleFileUpload modelName now provider (Except.ok ⟨some f, p, i⟩)).resp =
      fileCatchResponse e := by
    show (processUploadedFile modelName now provider
      (jsOr p defaultFilePrompt) (jsOr i defaultFileInstruction) (some f)).resp = _
    simp only [processUploadedFile]
    rw [if_neg hsz, hty]
    simp [hprov]
  rw [ht, hf]
  refine ⟨?_, ?_, ?_, ?_⟩
  · by_cases h1 : (jsIncludes e.message "API key" || jsIncludes e.message "API_KEY_INVALID") = true
    · simp [textCatchResponse, errResponse, h1]
    · by_cases h2 : (jsIncludes e.message "quota" || jsIncludes e.message "QUOTA") = true
      · simp [textCatchResponse, errResponse, h1, h2]
      · simp [textCatchResponse, errResponse, h1, h2]
  · by_cases h1 : (jsIncludes e.message "API key" || jsIncludes e.message "API_KEY_INVALID") = true
    · simp [fileCatchResponse, errResponse, h1]
    · by_cases h2 : (jsIncludes e.message "quota" || jsIncludes e.message "QUOTA") = true
      · simp [fileCatchResponse, errResponse, h1, h2]
      · by_cases h3 : (jsIncludes e.message "invalid" && jsIncludes e.message "file") = true
        · simp [fileCatchResponse, errResponse, h1, h2, h3]
        · simp [fileCatchResponse, errResponse, h1, h2, h3]
  · intro h1 h2
    simp [textCatchResponse, errResponse, h1, h2]
  · intro h1 h2 h3
    simp [fileCatchResponse, errResponse, h1, h2, h3]

/-- Witness for the amended C1 at an unmatched provider message. -/
theorem c1_amended_error_mapping_witness :
    jsBlank "hello" = false ∧
    ¬ (3 > MAX_FILE_SIZE) ∧ lookupSupportedType "text/plain" = some "TXT" ∧
    (handleTextRequest "gemini-1.5-flash" "now"
      (fun _ => Except.error ⟨"boom", "trace"⟩)
      (Except.ok ⟨some "hello", none⟩)).resp.status = 500 ∧
    (handleFileUpload "gemini-1.5-flash" "now"
      (fun _ => Except.error ⟨"boom", "trace"⟩)
      (Except.ok ⟨some ⟨"a.txt", 3, "text/plain", [104, 105, 33]⟩, none, none⟩)).resp.status = 500 ∧
    (handleTextRequest "gemini-1.5-flash" "now"
      (fun _ => Except.error ⟨"boom", "trace"⟩)
      (Except.ok ⟨some "hello", none⟩)).resp.body.details = some "trace" := by
  have h := c1_amended_error_mapping "gemini-1.5-flash" "now" "hello" ⟨"boom", "trace"⟩
    (fun _ => Except.error ⟨"boom", "trace"⟩) none none
    ⟨"a.txt", 3, "text/plain", [104, 105, 33]⟩ "TXT"
    (by decide) (fun r => rfl) (by decide) (by decide)
  refine ⟨by decide, by decide, by decide, ?_, ?_, ?_⟩
  · rw [h.1]; decide
  · rw [h.2.1]; decide
  · exact (h.2.2.1 (by decide) (by decide)).2

/-- Claim C6 counterexample: the 400 answer to an empty prompt has no
metadata field, so metadata is not present in every POST response. -/
theorem c6_counterexample :
    (POST "gemini-1.5-flash" "now" (fun _ => Except.ok "x")
      ⟨some "application/json", Except.ok ⟨some "", none⟩,
        Except.ok ⟨none, none, none⟩⟩).resp.status = 400 ∧
    (POST "gemini-1.5-flash" "now" (fun _ => Except.ok "x")
      ⟨some "application/json", Except.ok ⟨some "", none⟩,
        Except.ok ⟨none, none, none⟩⟩).resp.body.metadata = none := by
  exact ⟨rfl, rfl⟩

theorem envelope_errResponse (status : Nat) (msg : String) (det : Option String)
    (h : status ≠ 200) : analysisResultEnvelope (errResponse status msg det) := by
  refine ⟨?_, Or.inr ⟨rfl, rfl⟩, ?_⟩ <;> simp [errResponse, h]

theorem envelope_textCatch (e : ErrObj) : analysisResultEnvelope (textCatchResponse e) := by
  unfold textCatchResponse
  split
  · exact envelope_errResponse 401 _ _ (by decide)
  · split
    · exact envelope_errResponse 429 _ _ (by decide)
    · exact envelope_errResponse 500 _ _ (by decide)

theorem envelope_fileCatch (e : ErrObj) : analysisResultEnvelope (fileCatchResponse e) := by
  unfold fileCatchResponse
  split
  · exact envelope_errResponse 401 _ _ (by decide)
  · split
    · exact envelope_errResponse 429 _ _ (by decide)
    · split
      · exact envelope_errResponse 400 _ _ (by decide)
      · exact envelope_errResponse 500 _ _ (by decide)

theorem envelope_handleText (modelName now : String)
    (provider : ProviderRequest → Except ErrObj String)
    (parsed : Except ErrObj TextBody) :
    analysisResultEnvelope (handleTextRequest modelName now provider parsed).resp := by
  cases parsed with
  | error e => exact envelope_textCatch e
  | ok body =>
    obtain ⟨pr, ts⟩ := body
    cases pr with
    | none => exact envelope_errResponse 400 _ _ (by decide)
    | some prompt =>
      by_cases hb : jsBlank prompt = true
      · show analysisResultEnvelope (if jsBlank prompt = true then _ else _ : HandlerResult).resp
        rw [if_pos hb]
        exact envelope_errResponse 400 _ _ (by decide)
      · show analysisResultEnvelope (if jsBlank prompt = true then _ else _ : HandlerResult).resp
        rw [if_neg hb]
        cases hres : provider (ProviderRequest.textReq prompt) with
        | ok text =>
          simp only [hres]
          exact ⟨by simp, Or.inl ⟨rfl, rfl⟩, by simp⟩
        | error e =>
          simp only [hres]
          exact envelope_textCatch e

theorem envelope_processFile (modelName now : String)
    (provider : ProviderRequest → Except ErrObj String)
    (prompt instruction : String) (fileOpt : Option UploadedFile) :
    analysisResultEnvelope
      (processUploadedFile modelName now provider prompt instruction fileOpt).resp := by
  cases fileOpt with
  | none => exact envelope_errResponse 400 _ _ (by decide)
  | some file =>
    by_cases hsz : file.size > MAX_FILE_SIZE
    · show analysisResultEnvelope (if file.size > MAX_FILE_SIZE then _ else _ : HandlerResult).resp
      rw [if_pos hsz]
      exact envelope_errResponse 413 _ _ (by decide)
    · show analysisResultEnvelope (if file.size > MAX_FILE_SIZE then _ else _ : HandlerResult).resp
      rw [if_neg hsz]
      cases hl : lookupSupportedType file.type with
      | none =>
        simp only [hl]
        exact envelope_errResponse 400 _ _ (by decide)
      | some st =>
        simp only [hl]
        cases hres : provider (buildFileRequest instruction prompt file st) with
        | ok analysis =>
          simp only [hres]
          exact ⟨by simp, Or.inl ⟨rfl, rfl⟩, by simp⟩
        | error e =>
          simp only [hres]
          exact envelope_fileCatch e

theorem envelope_handleFile (modelName now : String)
    (provider : ProviderRequest → Except ErrObj String)
    (parsed : Except ErrObj FormData) :
    analysisResultEnvelope (handleFileUpload modelName now provider parsed).resp := by
  cases parsed with
  | error e => exact envelope_fileCatch e
  | ok form => exact envelope_processFile modelName now provider _ _ form.file

/-- Claim C6 (amended): every POST response has the AnalysisResult
envelope shape, with metadata present exactly on success: success is true
exactly when the status is 200, exactly one of response and error is
present, and metadata is present exactly when success is true. -/
theorem c6_amended_envelope (modelName now : String)
    (provider : ProviderRequest → Except ErrObj String) (req : HttpRequest) :
    analysisResultEnvelope (POST modelName now provider req).resp := by
  unfold POST
  split
  · exact envelope_handleFile modelName now provider req.formParsed
  · exact envelope_handleText modelName now provider req.jsonParsed

end ResumeLens
